import Mathlib

/-!
Verification development for the two analysis scripts of this repository:
`src/python/us_wage_analysis/wage_ml_analysis.py` (wage survey feature
engineering, OLS fitting and the `predict_wage` routine) and
`src/python/police_use_of_force_analysis.py` (incident aggregation, the
shapefile walk, the per-capita choropleth pipeline, the time series and the
policy impact summary).

Conventions of the shallow embedding:
- dataframe columns of numbers are `List` over `ℚ`; a float `NaN` cell is
  modelled as `none` in `Option ℚ` where it matters (the prediction frame);
- a one-row pandas frame is an ordered association list from column name to
  cell; `pandas` row assignment from a dict aligns on column names and fills
  columns without a matching key with `NaN`, which the embedding renders as
  a plain association-list lookup returning `Option`;
- `pandas.sort_values(by, ascending=False)` computes a stable ascending
  argsort of the key column and then reverses the resulting permutation
  (`nargsort` reverses the indexer for descending order); the embedding uses
  the stable `List.insertionSort` followed by `List.reverse`;
- `groupby` sorts the distinct keys ascending and drops missing keys;
- fallible library calls (`patsy.dmatrix`, applying fitted coefficients)
  return `Except`; the spline basis constructor is a parameter, since only
  its success or failure and its returned columns matter to the claims;
- `np.log`, `np.exp` and `round` on floats are `Real.log`, `Real.exp` and
  integer rounding over `ℝ`.
-/

/-! Part 1: wage analysis script. -/

/-- One merged survey record (`usa_00001.csv` joined with the education
crosswalk); only the columns the script reads are kept. -/
structure SurveyRow where
  educdc : ℚ
  RACE : ℚ
  HISPAN : ℚ
  MARST : ℚ
  SEX : ℚ
  VETSTAT : ℚ
  AGE : ℚ
  NCHILD : ℚ
  INCWAGE : ℚ
deriving DecidableEq

/-- Step 4 dummy: `(x["educdc"] == 12).astype(int)`. -/
def hsdip (x : SurveyRow) : ℤ := if x.educdc = 12 then 1 else 0

/-- Step 4 dummy: `(x["educdc"] >= 16).astype(int)`. -/
def coldip (x : SurveyRow) : ℤ := if 16 ≤ x.educdc then 1 else 0

/-- Step 4 dummy: `(x["RACE"] == 1).astype(int)`. -/
def white (x : SurveyRow) : ℤ := if x.RACE = 1 then 1 else 0

/-- Step 4 dummy: `(x["RACE"] == 2).astype(int)`. -/
def black (x : SurveyRow) : ℤ := if x.RACE = 2 then 1 else 0

/-- Step 4 dummy: `(x["HISPAN"] > 0).astype(int)`. -/
def hispanic (x : SurveyRow) : ℤ := if 0 < x.HISPAN then 1 else 0

/-- Step 4 dummy: `(x["MARST"] == 1).astype(int)`. -/
def married (x : SurveyRow) : ℤ := if x.MARST = 1 then 1 else 0

/-- Step 4 dummy: `(x["SEX"] == 2).astype(int)`. -/
def female (x : SurveyRow) : ℤ := if x.SEX = 2 then 1 else 0

/-- Step 4 dummy: `(x["VETSTAT"] == 2).astype(int)`. -/
def vet (x : SurveyRow) : ℤ := if x.VETSTAT = 2 then 1 else 0

/-- A survey record after Step 6 added the `lnincwage` column. -/
structure SurveyRowL extends SurveyRow where
  lnincwage : ℝ

/-- Step 6 of the wage script: `df = df[df["INCWAGE"] > 0]` followed by
`df["lnincwage"] = np.log(df["INCWAGE"])`. -/
noncomputable def lnincwage (df : List SurveyRow) : List SurveyRowL :=
  (df.filter (fun r => decide (0 < r.INCWAGE))).map
    (fun r => { toSurveyRow := r, lnincwage := Real.log (r.INCWAGE : ℝ) })

/-- A one-row feature frame: ordered columns, `none` cells are float `NaN`. -/
abbrev Row := List (String × Option ℚ)

/-- A fitted OLS results object: the coefficient vector indexed by the
predictor names (`model.params`). -/
structure OLSModel where
  params : List (String × ℚ)

/-- Column update as in `test_data[c] = v`: overwrite the column when it
exists, otherwise append it at the end of the frame. -/
def setCol (t : Row) (c : String) (v : Option ℚ) : Row :=
  if t.any (fun q => q.1 == c) then
    t.map (fun q => if q.1 == c then (q.1, v) else q)
  else
    t ++ [(c, v)]

/-- Applying the fitted coefficients to a one-row frame
(`model.predict(test_data)`): each predictor name is looked up by column
name; a missing column raises (the `Except.error` case) and a `NaN` cell
makes the whole dot product `NaN` (the `Except.ok none` case). -/
def olsPredict (m : OLSModel) (t : Row) : Except String (Option ℚ) :=
  m.params.foldr
    (fun pc acc =>
      match acc with
      | Except.error e => Except.error e
      | Except.ok s =>
        match t.lookup pc.1 with
        | none => Except.error ("column " ++ pc.1 ++ " not found")
        | some cell =>
          match s, cell with
          | some sv, some cv => Except.ok (some (sv + pc.2 * cv))
          | _, _ => Except.ok none)
    (Except.ok (some 0))

/-- The dict literal assigned to `test_data.loc[0, :]` in `predict_wage`:
the demographic profile together with the education indicators and the two
interaction terms, recomputed from `educdc`. -/
def profile_dict (educdc female white black hispanic married nchild vet : ℚ) :
    List (String × ℚ) :=
  [("educdc", educdc),
   ("hsdip", if educdc = 12 then 1 else 0),
   ("coldip", if 16 ≤ educdc then 1 else 0),
   ("female", female),
   ("white", white),
   ("black", black),
   ("hispanic", hispanic),
   ("married", married),
   ("NCHILD", nchild),
   ("vet", vet),
   ("hsdip_educdc", (if educdc = 12 then 1 else 0) * educdc),
   ("coldip_educdc", (if 16 ≤ educdc then 1 else 0) * educdc)]

/-- Lines 134 to 154 of `predict_wage`: build a frame with one column per
model predictor (initialised to zero), assign the profile dict to the row
(pandas aligns the dict on the column names, so a column with no matching
key becomes `NaN`, which makes the initial zeros irrelevant), then set
`AGE` and `age2 = age ** 2`, creating those columns when absent. -/
def build_test_data (model : OLSModel)
    (age educdc female white black hispanic married nchild vet : ℚ) : Row :=
  let dict := profile_dict educdc female white black hispanic married nchild vet
  let test_data : Row := model.params.map (fun p => (p.1, dict.lookup p.1))
  setCol (setCol test_data "AGE" (some age)) "age2" (some (age ^ 2))

/-- Renaming of the `Intercept` spline column to `const` when present. -/
def renameIntercept (s : List (String × ℚ)) : List (String × ℚ) :=
  s.map (fun p => (if p.1 == "Intercept" then "const" else p.1, p.2))

/-- Copy each spline basis value into the frame when the frame already has a
column of that name (spline columns unknown to the model are silently
dropped), then insert a `const` column containing 1 at the front when the
frame still has none. -/
def apply_spline (test_data : Row) (spline_features : List (String × ℚ)) : Row :=
  let t := spline_features.foldl
    (fun t p => if t.any (fun q => q.1 == p.1) then setCol t p.1 (some p.2) else t)
    test_data
  if t.any (fun q => q.1 == "const") then t else ("const", some (1 : ℚ)) :: t

/-- The body of the `try` block of `predict_wage`: build the spline basis
for the input age, rename its intercept, merge it into the frame, apply the
fitted coefficients, and raise `ValueError` when the prediction is `NaN`.
(The debugging `model.predict` call before the real one only prints and can
only fail in exactly the ways the real one fails, so it is not repeated.) -/
def predict_wage_try (bs : ℚ → Except String (List (String × ℚ)))
    (age : ℚ) (model : OLSModel) (test_data : Row) : Except String ℚ :=
  match bs age with
  | Except.error e => Except.error e
  | Except.ok spline_features =>
    match olsPredict model (apply_spline test_data (renameIntercept spline_features)) with
    | Except.error e => Except.error e
    | Except.ok none => Except.error "Prediction resulted in NaN"
    | Except.ok (some lw) => Except.ok lw

/-- Rounding to cents: `round(x, 2)`. -/
noncomputable def round2 (x : ℝ) : ℝ := ((round (x * 100) : ℤ) : ℝ) / 100

/-- `predict_wage(age, model, df, ...)` from the wage script: the spline
basis constructor `bs` stands for `patsy.dmatrix` on the one-point frame
for this age. Any `Except.error` escaping the try body is caught and turned
into `None`; on success the predicted log wage is exponentiated and rounded
to cents. The `df` argument is accepted but never read, exactly as in the
source. -/
noncomputable def predict_wage (bs : ℚ → Except String (List (String × ℚ)))
    (age : ℚ) (model : OLSModel) (df : List SurveyRow)
    (educdc female white black hispanic married nchild vet : ℚ) : Option ℝ :=
  match predict_wage_try bs age model
      (build_test_data model age educdc female white black hispanic married nchild vet) with
  | Except.error _ => none
  | Except.ok lw => some (round2 (Real.exp lw))

/-! Part 2: police use-of-force script. -/

/-- A parsed incident date (`pd.to_datetime` succeeded). -/
structure PDate where
  year : ℤ
  month : ℤ
  day : ℤ
deriving DecidableEq

/-- One row of the fatal encounters table after the column renames; rows
whose date failed to parse carry `none` (pandas `NaT`). -/
structure IncidentRow where
  state : String
  city : String
  race : String
  age : Option ℚ
  incident_date : Option PDate
deriving DecidableEq

/-- Distinct keys of a column, first occurrence kept, order preserved. -/
def dedupKeys [DecidableEq α] : List α → List α
  | [] => []
  | k :: ks => k :: (dedupKeys ks).filter (fun x => x != k)

/-- Byte-wise lexicographic comparison of strings, the order pandas uses
when sorting object keys of a groupby. -/
def charListLe : List Char → List Char → Bool
  | [], _ => true
  | _ :: _, [] => false
  | a :: as, b :: bs =>
    if a.toNat < b.toNat then true
    else if b.toNat < a.toNat then false
    else charListLe as bs

/-- String order as a relation usable by `List.insertionSort`. -/
def str_le (a b : String) : Prop := charListLe a.data b.data = true

instance : DecidableRel str_le :=
  fun a b => inferInstanceAs (Decidable (charListLe a.data b.data = true))

/-- `df.groupby(col).size().reset_index(...)` for a string key column:
distinct keys sorted ascending, each with its number of occurrences. -/
def groupby_size (keys : List String) : List (String × ℕ) :=
  (List.insertionSort str_le (dedupKeys keys)).map (fun k => (k, keys.count k))

/-- `groupby` for a numeric key column. -/
def groupby_size_rat (keys : List ℚ) : List (ℚ × ℕ) :=
  (List.insertionSort (fun a b => a ≤ b) (dedupKeys keys)).map
    (fun k => (k, keys.count k))

/-- Line 123: incidents grouped by `Location of death (state)`. -/
def grouped_by_state (df : List IncidentRow) : List (String × ℕ) :=
  groupby_size (df.map (fun r => r.state))

/-- Line 134: incidents grouped by `Location of death (city)`. -/
def grouped_by_city (df : List IncidentRow) : List (String × ℕ) :=
  groupby_size (df.map (fun r => r.city))

/-- Line 155: incidents grouped by `Subject_age`; missing ages are dropped
by the groupby. -/
def grouped_by_age (df : List IncidentRow) : List (ℚ × ℕ) :=
  groupby_size_rat ((df.map (fun r => r.age)).filterMap id)

/-- Comparison of grouped rows by their count column. -/
def countLE (a b : α × ℕ) : Prop := a.2 ≤ b.2

instance : DecidableRel (countLE (α := α)) :=
  fun a b => inferInstanceAs (Decidable (a.2 ≤ b.2))

instance : IsTotal (α × ℕ) countLE := ⟨fun a b => Nat.le_total a.2 b.2⟩

instance : IsTrans (α × ℕ) countLE := ⟨fun _ _ _ => Nat.le_trans⟩

/-- `frame.sort_values(by="Number of Incidents", ascending=False)`: pandas
argsorts the count column ascending with a stable sort and reverses the
resulting permutation. -/
def sort_values_desc (g : List (α × ℕ)) : List (α × ℕ) :=
  (List.insertionSort countLE g).reverse

/-- Line 124: `.head(10)` of the descending state counts. -/
def grouped_by_state_short (df : List IncidentRow) : List (String × ℕ) :=
  (sort_values_desc (grouped_by_state df)).take 10

/-- Line 135: `.head(10)` of the descending city counts. -/
def grouped_by_city_short (df : List IncidentRow) : List (String × ℕ) :=
  (sort_values_desc (grouped_by_city df)).take 10

/-- Line 156: `.head(20)` of the descending age counts. -/
def grouped_by_age_short (df : List IncidentRow) : List (ℚ × ℕ) :=
  (sort_values_desc (grouped_by_age df)).take 20

/-- One polygon record of the states shapefile. -/
structure GeoRow where
  admin : String
  name : String
deriving DecidableEq

/-- Line 191: filter the shapefile to the United States, left-merge the
state incident counts on the region name and `fillna(0)`: a region name
with no matching state keeps every row and gets count 0. The `grouped`
argument is the state aggregation after the abbreviation replacement and
the rename of its key column to `state`; its count column is rational
because the merge coerces it to float. -/
def merged (us_states : List GeoRow) (grouped : List (String × ℚ)) :
    List (String × ℚ) :=
  (us_states.filter (fun g => g.admin == "United States of America")).map
    (fun g => (g.name, (grouped.lookup g.name).getD 0))

/-- Line 195: `merged["Number of Incidents"] / (population_df["DP05_0001E"].sum()
/ len(population_df))` - every state count is divided by the one overall
average of the population column. -/
def incidents_per_capita (m : List (String × ℚ)) (pop : List ℚ) :
    List (String × ℚ) :=
  m.map (fun p => (p.1, p.2 / (pop.sum / (pop.length : ℚ))))

/-- Python `file.endswith(pat)` on the character data of the strings. -/
def endswith (s pat : String) : Bool := pat.data.isSuffixOf s.data

/-- `os.path.join(root, file)`. -/
def path_join (root f : String) : String := root ++ "/" ++ f

/-- The first `.shp` file of one directory of the walk, joined to its root:
the inner `for file in files` loop with its `break`. -/
def dir_first_shp (d : String × List String) : Option String :=
  (d.2.find? (fun f => endswith f ".shp")).map (path_join d.1)

/-- Lines 84 to 89: the walk over the extraction directory. `shp_file`
starts as `None`; every directory that contains a `.shp` file overwrites it
with its own first match (the `break` leaves only the inner loop), and a
directory without one leaves the previous value in place - which is exactly
`Option.or` of the directory result with the accumulator. -/
def shp_file (walk : List (String × List String)) : Option String :=
  walk.foldl (fun acc d => (dir_first_shp d).or acc) none

/-- Lines 91 to 92: `if not shp_file: raise FileNotFoundError(...)`. -/
def locate_shp (walk : List (String × List String)) : Except String String :=
  match shp_file walk with
  | none => Except.error "Shapefile not found after extraction."
  | some p => Except.ok p

/-- Line 203: `df["incident_date"].dt.year`, `NaT` propagating to missing. -/
def year_col (df : List IncidentRow) : List (Option ℤ) :=
  df.map (fun r => r.incident_date.map PDate.year)

/-- `groupby` for an integer key column. -/
def groupby_size_int (keys : List ℤ) : List (ℤ × ℕ) :=
  (List.insertionSort (fun a b => a ≤ b) (dedupKeys keys)).map
    (fun k => (k, keys.count k))

/-- Lines 203 to 207: group the incidents by parsed year (missing years are
dropped by the groupby) and keep only the years up to the current calendar
year, `current_year` standing for `datetime.now().year`. -/
def time_series (df : List IncidentRow) (current_year : ℤ) : List (ℤ × ℕ) :=
  (groupby_size_int ((year_col df).filterMap id)).filter
    (fun p => decide (p.1 ≤ current_year))

/-- One row of `city_policies.csv`: the two id columns and the boolean-like
policy columns. -/
structure PolicyRow where
  City : String
  State : String
  vals : List (String × ℚ)

/-- Line 218: `policy_df.melt(id_vars=["City", "State"], var_name="Policy",
value_name="Implemented")`: one block per policy column, one output row per
input row inside a block. `cols` is the list of non-id columns of the
frame, each row holding a value for each of them. -/
def melt (cols : List String) (rows : List PolicyRow) :
    List (String × String × String × ℚ) :=
  cols.flatMap (fun c => rows.map (fun r => (r.City, r.State, c, (r.vals.lookup c).getD 0)))

/-- Line 219: `policy_impact.groupby("Policy")["Implemented"].mean()`: the
distinct policy names sorted ascending, each with the arithmetic mean of
its melted values. -/
def policy_impact_summary (cols : List String) (rows : List PolicyRow) :
    List (String × ℚ) :=
  let melted := melt cols rows
  (List.insertionSort str_le (dedupKeys (melted.map (fun t => t.2.2.1)))).map
    (fun pol =>
      let vs := (melted.filter (fun t => t.2.2.1 == pol)).map (fun t => t.2.2.2)
      (pol, vs.sum / (vs.length : ℚ)))

/-- Rounding to three decimals, the comparison used by the scenario. -/
def round3 (q : ℚ) : ℚ := ((round (q * 1000) : ℤ) : ℚ) / 1000

/-! Helper lemmas. -/

lemma mem_dedupKeys [DecidableEq α] (l : List α) (x : α) :
    x ∈ dedupKeys l ↔ x ∈ l := by
  induction l with
  | nil => simp [dedupKeys]
  | cons k ks ih =>
    by_cases hxk : x = k
    · simp [dedupKeys, hxk]
    · simp [dedupKeys, hxk, List.mem_filter, ih]

/-! Claim theorems. -/

/-- C1: for every age, demographic profile and fitted model, when the
spline basis constructor fails, or applying the coefficients fails (a
column of the predictor set is missing from the one-row frame), or the
prediction comes out as NaN (a predictor the constructed row cannot
satisfy), `predict_wage` returns `none` instead of raising: the error is
caught inside the routine. -/
theorem predict_wage_error_to_none (bs : ℚ → Except String (List (String × ℚ)))
    (age : ℚ) (model : OLSModel) (df : List SurveyRow)
    (educdc female white black hispanic married nchild vet : ℚ) :
    (∀ e, bs age = Except.error e →
      predict_wage bs age model df educdc female white black hispanic married nchild vet = none)
    ∧ (∀ s e, bs age = Except.ok s →
      olsPredict model (apply_spline
          (build_test_data model age educdc female white black hispanic married nchild vet)
          (renameIntercept s)) = Except.error e →
      predict_wage bs age model df educdc female white black hispanic married nchild vet = none)
    ∧ (∀ s, bs age = Except.ok s →
      olsPredict model (apply_spline
          (build_test_data model age educdc female white black hispanic married nchild vet)
          (renameIntercept s)) = Except.ok none →
      predict_wage bs age model df educdc female white black hispanic married nchild vet = none) := by
  refine ⟨fun e he => ?_, fun s e hs hp => ?_, fun s hs hp => ?_⟩
  · simp [predict_wage, predict_wage_try, he]
  · simp [predict_wage, predict_wage_try, hs, hp]
  · simp [predict_wage, predict_wage_try, hs, hp]

/-- Witness for C1: a concrete failing spline constructor yields `none`. -/
theorem predict_wage_error_to_none_witness :
    predict_wage (fun _ => Except.error "spline failure") 18 ⟨[("const", 1)]⟩ []
      16 1 0 0 0 0 0 0 = none :=
  (predict_wage_error_to_none (fun _ => Except.error "spline failure") 18
    ⟨[("const", 1)]⟩ [] 16 1 0 0 0 0 0 0).1 "spline failure" rfl

/-- C2: the high-school indicator is 1 exactly when `educdc = 12`, the
college indicator is 1 exactly when `educdc >= 16`, both being 1 entails
`educdc >= 16`, and at the boundary `educdc = 16` the college indicator is
set and the high-school one is not. -/
theorem education_tier_indicators (x : SurveyRow) :
    (hsdip x = 1 ↔ x.educdc = 12)
    ∧ (coldip x = 1 ↔ 16 ≤ x.educdc)
    ∧ (hsdip x = 1 ∧ coldip x = 1 → 16 ≤ x.educdc)
    ∧ (x.educdc = 16 → coldip x = 1 ∧ hsdip x = 0) := by
  refine ⟨?_, ?_, ?_, ?_⟩
  · unfold hsdip; split_ifs with h <;> norm_num [h]
  · unfold coldip; split_ifs with h <;> norm_num [h]
  · rintro ⟨-, hc⟩
    unfold coldip at hc
    by_cases h : 16 ≤ x.educdc
    · exact h
    · simp [h] at hc
  · intro h16
    unfold hsdip coldip
    rw [h16]
    norm_num

/-- Witness for C2 at the boundary row with `educdc = 16`. -/
theorem education_tier_indicators_witness :
    coldip ⟨16, 1, 0, 1, 2, 2, 30, 0, 100⟩ = 1
    ∧ hsdip ⟨16, 1, 0, 1, 2, 2, 30, 0, 100⟩ = 0 :=
  (education_tier_indicators ⟨16, 1, 0, 1, 2, 2, 30, 0, 100⟩).2.2.2 rfl

/-- C4: every entry of the per-capita column is the corresponding merged
state count divided by one common constant, the sum of the population
estimate column divided by the number of population rows - never by the
state population itself. -/
theorem per_capita_common_divisor (us : List GeoRow) (grouped : List (String × ℚ))
    (pop : List ℚ) (i : ℕ) :
    (incidents_per_capita (merged us grouped) pop)[i]?
      = ((merged us grouped)[i]?).map
          (fun p => (p.1, p.2 / (pop.sum / (pop.length : ℚ)))) := by
  simp [incidents_per_capita, List.getElem?_map]

/-- C5: a United States polygon whose region name matches no state of the
aggregation is kept by the left merge with count exactly 0, and its
per-capita value is exactly 0. -/
theorem zero_incident_state_zero (us : List GeoRow) (grouped : List (String × ℚ))
    (pop : List ℚ) (g : GeoRow) (hmem : g ∈ us)
    (hadmin : g.admin = "United States of America")
    (hmiss : grouped.lookup g.name = none) :
    (g.name, (0 : ℚ)) ∈ merged us grouped
    ∧ (g.name, (0 : ℚ)) ∈ incidents_per_capita (merged us grouped) pop := by
  have h1 : g ∈ us.filter (fun g => g.admin == "United States of America") :=
    List.mem_filter.2 ⟨hmem, by simp [hadmin]⟩
  have h2 : (g.name, (0 : ℚ)) ∈ merged us grouped := by
    have h3 := List.mem_map_of_mem
      (fun g : GeoRow => (g.name, (grouped.lookup g.name).getD 0)) h1
    simpa [merged, hmiss] using h3
  refine ⟨h2, ?_⟩
  have h4 := List.mem_map_of_mem
    (fun p : String × ℚ => (p.1, p.2 / (pop.sum / (pop.length : ℚ)))) h2
  simpa [incidents_per_capita] using h4

/-- Witness for C5: a concrete unmatched polygon gets per-capita value 0. -/
theorem zero_incident_state_zero_witness :
    ("Nowhere", (0 : ℚ)) ∈ merged [⟨"United States of America", "Nowhere"⟩] [("California", 3)]
    ∧ ("Nowhere", (0 : ℚ)) ∈ incidents_per_capita
        (merged [⟨"United States of America", "Nowhere"⟩] [("California", 3)]) [100] :=
  zero_incident_state_zero [⟨"United States of America", "Nowhere"⟩] [("California", 3)]
    [100] ⟨"United States of America", "Nowhere"⟩ (by simp) rfl (by decide)

/-- C9: `predict_wage` never reads its `df` argument, so its result is the
same for any two dataframes, all other inputs equal. -/
theorem predict_wage_df_irrelevant (bs : ℚ → Except String (List (String × ℚ)))
    (age : ℚ) (model : OLSModel) (d1 d2 : List SurveyRow)
    (educdc female white black hispanic married nchild vet : ℚ) :
    predict_wage bs age model d1 educdc female white black hispanic married nchild vet
      = predict_wage bs age model d2 educdc female white black hispanic married nchild vet := rfl

lemma filter_pos_nonpos_length (df : List SurveyRow) :
    (df.filter (fun r => decide (0 < r.INCWAGE))).length
      + (df.filter (fun r => decide (r.INCWAGE ≤ 0))).length = df.length := by
  induction df with
  | nil => simp
  | cons r rs ih =>
    by_cases h : 0 < r.INCWAGE
    · simp [List.filter_cons, h, not_le.2 h]
      omega
    · simp [List.filter_cons, h, not_lt.1 h]
      omega

/-- C6: the row filter keeps exactly the rows with strictly positive wage
income (the removed row count is the count of non-positive-wage rows, which
equals input length minus output length), and the log-wage column of the
retained rows is the natural logarithm of their wage column. -/
theorem lnincwage_filter_log (df : List SurveyRow) :
    (lnincwage df).length + (df.filter (fun r => decide (r.INCWAGE ≤ 0))).length = df.length
    ∧ df.length - (lnincwage df).length = (df.filter (fun r => decide (r.INCWAGE ≤ 0))).length
    ∧ (lnincwage df).map (fun s => s.toSurveyRow) = df.filter (fun r => decide (0 < r.INCWAGE))
    ∧ (lnincwage df).map (fun s => s.lnincwage)
        = (df.filter (fun r => decide (0 < r.INCWAGE))).map (fun r => Real.log (r.INCWAGE : ℝ)) := by
  have hlen : (lnincwage df).length = (df.filter (fun r => decide (0 < r.INCWAGE))).length := by
    simp [lnincwage]
  have h1 := filter_pos_nonpos_length df
  refine ⟨by omega, by omega, ?_, ?_⟩
  · simp only [lnincwage, List.map_map]
    exact List.map_id _
  · simp only [lnincwage, List.map_map]
    rfl

lemma foldl_or_last {α β : Type} (g : α → Option β) (l : List α) (acc : Option β) :
    l.foldl (fun a d => (g d).or a) acc = (l.reverse.findSome? g).or acc := by
  induction l generalizing acc with
  | nil => simp
  | cons d ds ih =>
    have hone : List.findSome? g [d] = g d := by
      cases h : g d <;> simp [List.findSome?_cons, h]
    simp only [List.foldl_cons, List.reverse_cons]
    rw [ih, List.findSome?_append, hone, Option.or_assoc]

/-- C7 (amended): the walk does not keep the first matching file it ever
encounters; each directory that contains a `.shp` file overwrites the
selection with its own first match, so the selected file is the first
match of the last such directory in walk order - equivalently the first
per-directory match found scanning the walk in reverse. When no file under
the extraction directory has the extension, the run stops with the fatal
`FileNotFoundError`. -/
theorem shp_last_dir_selection (walk : List (String × List String)) :
    shp_file walk = walk.reverse.findSome? dir_first_shp
    ∧ ((∀ d ∈ walk, ∀ f ∈ d.2, endswith f ".shp" = false) →
        locate_shp walk = Except.error "Shapefile not found after extraction.") := by
  have h1 : shp_file walk = walk.reverse.findSome? dir_first_shp := by
    rw [shp_file, foldl_or_last, Option.or_none]
  refine ⟨h1, fun hno => ?_⟩
  have h2 : walk.reverse.findSome? dir_first_shp = none := by
    rw [List.findSome?_eq_none_iff]
    intro d hd
    have hd2 := List.mem_reverse.1 hd
    have hfind : d.2.find? (fun f => endswith f ".shp") = none := by
      rw [List.find?_eq_none]
      intro f hf
      simp [hno d hd2 f hf]
    simp [dir_first_shp, hfind]
  rw [locate_shp, h1, h2]

/-- Counterexample to C7 as stated: with two walked directories each
holding one `.shp` file, the code selects the file of the second (last)
directory, not the first file encountered during the walk. -/
theorem shp_first_encountered_cex :
    locate_shp [("a", ["x.shp"]), ("b", ["y.shp"])] = Except.ok "b/y.shp"
    ∧ locate_shp [("a", ["x.shp"]), ("b", ["y.shp"])] ≠ Except.ok "a/x.shp" := by
  refine ⟨rfl, fun h => ?_⟩
  have h1 : locate_shp [("a", ["x.shp"]), ("b", ["y.shp"])] = Except.ok "b/y.shp" := rfl
  rw [h1] at h
  injection h with h2
  exact absurd h2 (by decide)

/-- Witness for C7 (amended): a walk without any `.shp` file is fatal. -/
theorem shp_last_dir_selection_witness :
    locate_shp [("a", ["readme.txt"])] = Except.error "Shapefile not found after extraction." :=
  (shp_last_dir_selection [("a", ["readme.txt"])]).2 (by decide)

lemma length_sort_values_desc (g : List (α × ℕ)) :
    (sort_values_desc g).length = g.length := by
  simp only [sort_values_desc, List.length_reverse]
  exact (List.perm_insertionSort countLE g).length_eq

lemma sorted_sort_values_desc (g : List (α × ℕ)) :
    (sort_values_desc g).Pairwise (fun a b => b.2 ≤ a.2) := by
  have hs : (List.insertionSort countLE g).Pairwise countLE :=
    List.sorted_insertionSort countLE g
  exact List.pairwise_reverse.2 hs

lemma filter_count_sort_values_desc (g : List (α × ℕ)) (c : ℕ) :
    (sort_values_desc g).filter (fun p => p.2 == c)
      = (g.filter (fun p => p.2 == c)).reverse := by
  have hpair : (g.filter (fun p : α × ℕ => p.2 == c)).Pairwise countLE := by
    apply List.pairwise_of_forall_mem_list
    intro a ha b hb
    have ha2 := (List.mem_filter.1 ha).2
    have hb2 := (List.mem_filter.1 hb).2
    simp only [beq_iff_eq] at ha2 hb2
    unfold countLE
    omega
  have hsub : (g.filter (fun p : α × ℕ => p.2 == c)).Sublist (List.insertionSort countLE g) :=
    List.sublist_insertionSort hpair (List.filter_sublist g)
  have hsub2 := hsub.filter (fun p : α × ℕ => p.2 == c)
  rw [List.filter_filter] at hsub2
  simp only [Bool.and_self] at hsub2
  have hperm : ((List.insertionSort countLE g).filter (fun p : α × ℕ => p.2 == c)).Perm
      (g.filter (fun p : α × ℕ => p.2 == c)) :=
    (List.perm_insertionSort countLE g).filter _
  have heq : (g.filter (fun p : α × ℕ => p.2 == c))
      = (List.insertionSort countLE g).filter (fun p : α × ℕ => p.2 == c) :=
    hsub2.eq_of_length hperm.length_eq.symm
  rw [sort_values_desc, List.filter_reverse, ← heq]

/-- C3 (amended): each truncation returns exactly N rows (10 for state and
city, 20 for age), or all rows when fewer categories exist, sorted by
descending incident count; but categories with equal counts appear in the
reverse of their original group order (pandas reverses a stable ascending
argsort to sort descending), not in the original order. -/
theorem topn_truncation_desc (df : List IncidentRow) (c : ℕ) :
    (grouped_by_state_short df).length = min 10 (grouped_by_state df).length
    ∧ (grouped_by_city_short df).length = min 10 (grouped_by_city df).length
    ∧ (grouped_by_age_short df).length = min 20 (grouped_by_age df).length
    ∧ (grouped_by_state_short df).Pairwise (fun a b => b.2 ≤ a.2)
    ∧ (grouped_by_city_short df).Pairwise (fun a b => b.2 ≤ a.2)
    ∧ (grouped_by_age_short df).Pairwise (fun a b => b.2 ≤ a.2)
    ∧ (sort_values_desc (grouped_by_state df)).filter (fun p => p.2 == c)
        = ((grouped_by_state df).filter (fun p => p.2 == c)).reverse
    ∧ (sort_values_desc (grouped_by_city df)).filter (fun p => p.2 == c)
        = ((grouped_by_city df).filter (fun p => p.2 == c)).reverse
    ∧ (sort_values_desc (grouped_by_age df)).filter (fun p => p.2 == c)
        = ((grouped_by_age df).filter (fun p => p.2 == c)).reverse := by
  refine ⟨?_, ?_, ?_, ?_, ?_, ?_, ?_, ?_, ?_⟩
  · rw [grouped_by_state_short, List.length_take, length_sort_values_desc]
  · rw [grouped_by_city_short, List.length_take, length_sort_values_desc]
  · rw [grouped_by_age_short, List.length_take, length_sort_values_desc]
  · exact List.Pairwise.sublist (List.take_sublist _ _) (sorted_sort_values_desc _)
  · exact List.Pairwise.sublist (List.take_sublist _ _) (sorted_sort_values_desc _)
  · exact List.Pairwise.sublist (List.take_sublist _ _) (sorted_sort_values_desc _)
  · exact filter_count_sort_values_desc _ c
  · exact filter_count_sort_values_desc _ c
  · exact filter_count_sort_values_desc _ c

/-- Counterexample to C3 as stated: two states tied at one incident each
come out of the truncation step in reversed original group order, not in
their original order. -/
theorem topn_tie_order_cex :
    grouped_by_state_short
        [⟨"A", "x", "", none, none⟩, ⟨"B", "y", "", none, none⟩]
      = [("B", 1), ("A", 1)]
    ∧ grouped_by_state_short
        [⟨"A", "x", "", none, none⟩, ⟨"B", "y", "", none, none⟩]
      ≠ [("A", 1), ("B", 1)] := by
  constructor <;> decide

/-- C10: every row of the filtered time series has a year at most the
current calendar year (future-year groups are removed by the filter), and
every year of the series comes from an incident whose date parsed
successfully (rows with unparseable dates are excluded by the group-by). -/
theorem time_series_no_future (df : List IncidentRow) (current_year : ℤ)
    (p : ℤ × ℕ) (hp : p ∈ time_series df current_year) :
    p.1 ≤ current_year
    ∧ ∃ r ∈ df, ∃ d, r.incident_date = some d ∧ d.year = p.1 := by
  obtain ⟨h1, h2⟩ := List.mem_filter.1 hp
  obtain ⟨k, hk, hkp⟩ := List.mem_map.1 h1
  have hk2 : k ∈ (year_col df).filterMap id :=
    (mem_dedupKeys _ _).1 ((List.mem_insertionSort _).1 hk)
  obtain ⟨oy, hoy, hid⟩ := List.mem_filterMap.1 hk2
  obtain ⟨r, hr, hro⟩ := List.mem_map.1 hoy
  have hok : r.incident_date.map PDate.year = some k := hro.trans hid
  obtain ⟨d, hd, hy⟩ := Option.map_eq_some'.1 hok
  refine ⟨of_decide_eq_true h2, r, hr, d, hd, ?_⟩
  rw [← hkp]
  exact hy

/-- Witness for C10 at a concrete one-incident frame. -/
theorem time_series_no_future_witness :
    ((2020 : ℤ), 1).1 ≤ 2026
    ∧ ∃ r ∈ [(⟨"CA", "Los Angeles", "", none, some ⟨2020, 6, 1⟩⟩ : IncidentRow)],
        ∃ d, r.incident_date = some d ∧ d.year = ((2020 : ℤ), 1).1 :=
  time_series_no_future [⟨"CA", "Los Angeles", "", none, some ⟨2020, 6, 1⟩⟩] 2026
    (2020, 1) (by decide)

/-- C8: grouping the fixed 3-row incident table with states CA, CA, TX
yields the counts CA 2 and TX 1; and the melted policy-impact mean of a
single boolean column with values 1, 0, 1 across three cities equals 0.667
after rounding to three decimals. -/
theorem scenario_group_and_policy_mean :
    grouped_by_state
        [⟨"CA", "Los Angeles", "", none, none⟩,
         ⟨"CA", "San Diego", "", none, none⟩,
         ⟨"TX", "Houston", "", none, none⟩]
      = [("CA", 2), ("TX", 1)]
    ∧ (policy_impact_summary ["chokehold_ban"]
        [⟨"Austin", "TX", [("chokehold_ban", 1)]⟩,
         ⟨"Dallas", "TX", [("chokehold_ban", 0)]⟩,
         ⟨"Houston", "TX", [("chokehold_ban", 1)]⟩]).map (fun p => (p.1, round3 p.2))
      = [("chokehold_ban", 667/1000)] := by
  constructor
  · decide
  · have hsum : policy_impact_summary ["chokehold_ban"]
        [⟨"Austin", "TX", [("chokehold_ban", 1)]⟩,
         ⟨"Dallas", "TX", [("chokehold_ban", 0)]⟩,
         ⟨"Houston", "TX", [("chokehold_ban", 1)]⟩]
        = [("chokehold_ban", (1 + (0 + (1 + 0)) : ℚ) / ((3 : ℕ) : ℚ))] := rfl
    rw [hsum]
    simp only [List.map_cons, List.map_nil]
    norm_num [round3, round_eq]
